import Mathlib

/-!
Shallow embedding of `src/scripts/parser.py` (HeXA-UNIST/BapuServerlessApi):
a linear pipeline that downloads a cafeteria menu image, asks a generative
model for a schema-constrained weekly menu JSON, validates it, remaps a few
fields (weekday and meal-time symbols to integers, year prefix on dates,
restaurant name injection), and writes a JSON file unless it already exists.
-/

/-- Validated daily menu entry: the pydantic model `DailyMenu`
(`date`, `day`, `menus`, `calorie`, `time`), with `calorie : int` required. -/
structure DailyMenu where
  date : String
  day : String
  menus : List String
  calorie : Int
  time : String
deriving DecidableEq, Repr

/-- Validated weekly menu: the pydantic model `WeeklyMenu`. -/
structure WeeklyMenu where
  items : List DailyMenu
  restaurant_name : String
  start_date : String
  end_date : String
deriving DecidableEq, Repr

/-- One entry of `parsed_result.model_dump(mode="json")["items"]`: the plain
dict the normalization loop iterates over.  At the dict level `calorie` may in
principle be `None`, which the loop checks for (`if daily_menu["calorie"] is
None`), hence `Option Int` here. -/
structure DumpedDailyMenu where
  date : String
  day : String
  menus : List String
  calorie : Option Int
  time : String
deriving DecidableEq, Repr

/-- `model_dump(mode="json")` restricted to one item: the validated entry as a
plain dict.  The required `int` field `calorie` always dumps to an actual
integer, never `None`. -/
def model_dump (m : DailyMenu) : DumpedDailyMenu :=
  ⟨m.date, m.day, m.menus, some m.calorie, m.time⟩

/-- Fully normalized entry as persisted: keys in dict insertion order
`date, day, menus, calorie, time, restaurant_name`. -/
structure NormalizedMenu where
  date : String
  day : Nat
  menus : List String
  calorie : Int
  time : Nat
  restaurant_name : String
deriving DecidableEq, Repr

/-- The dict `weekday_to_index = {"Mon": 1, ..., "Sun": 7}` as a lookup:
`none` models a Python `KeyError`. -/
def weekday_to_index (s : String) : Option Nat :=
  if s = "Mon" then some 1
  else if s = "Tue" then some 2
  else if s = "Wed" then some 3
  else if s = "Thu" then some 4
  else if s = "Fri" then some 5
  else if s = "Sat" then some 6
  else if s = "Sun" then some 7
  else none

/-- The dict `time_to_index = {"breakfast": 1, "lunch": 2, "dinner": 3}`. -/
def time_to_index (s : String) : Option Nat :=
  if s = "breakfast" then some 1
  else if s = "lunch" then some 2
  else if s = "dinner" then some 3
  else none

/-- Body of the normalization loop for one `daily_menu` dict: calorie `None`
check, year prefix on the date, restaurant-name injection, and the two dict
lookups (a failed lookup is a `KeyError`, modelled as `none`). -/
def normalizeEntry (year : Nat) (rn : String) (d : DumpedDailyMenu) :
    Option NormalizedMenu :=
  match weekday_to_index d.day with
  | none => none
  | some dayIdx =>
    match time_to_index d.time with
    | none => none
    | some timeIdx =>
      some ⟨toString year ++ "-" ++ d.date,
            dayIdx,
            d.menus,
            (match d.calorie with | none => 0 | some c => c),
            timeIdx,
            rn⟩

/-- The `for daily_menu in json_data["items"]` loop building
`output_for_save`; the first `KeyError` aborts the whole run, so a failing
entry yields `none` overall. -/
def normalizeItems (year : Nat) (rn : String) :
    List DumpedDailyMenu → Option (List NormalizedMenu)
  | [] => some []
  | d :: ds =>
    match normalizeEntry year rn d with
    | none => none
    | some n =>
      match normalizeItems year rn ds with
      | none => none
      | some ns => some (n :: ns)

/-- One character of the `json.dumps(..., ensure_ascii=False)` string encoder:
quote, backslash and the common control characters are escaped, everything
else (non-ASCII included) passes through literally. -/
def escapeJsonChar (c : Char) : String :=
  if c = '"' then ("\\\"")
  else if c = '\\' then ("\\\\")
  else if c = '\n' then ("\\n")
  else if c = '\t' then ("\\t")
  else if c = '\r' then ("\\r")
  else String.singleton c

def escapeJsonString (s : String) : String :=
  String.join (s.toList.map escapeJsonChar)

def jsonQuote (s : String) : String :=
  "\"" ++ escapeJsonString s ++ "\""

/-- `json.dumps` rendering of the `menus` string list at nesting depth 2 with
`indent=2`. -/
def serializeMenus : List String → String
  | [] => "[]"
  | ms =>
    "[\n" ++ String.intercalate (",\n") (ms.map (fun m => "      " ++ jsonQuote m))
      ++ "\n    ]"

/-- `json.dumps` rendering of one normalized entry dict (`indent=2`, keys in
insertion order). -/
def serializeEntry (n : NormalizedMenu) : String :=
  "  \x7b\n"
    ++ "    \"date\": " ++ jsonQuote n.date ++ ",\n"
    ++ "    \"day\": " ++ toString n.day ++ ",\n"
    ++ "    \"menus\": " ++ serializeMenus n.menus ++ ",\n"
    ++ "    \"calorie\": " ++ toString n.calorie ++ ",\n"
    ++ "    \"time\": " ++ toString n.time ++ ",\n"
    ++ "    \"restaurant_name\": " ++ jsonQuote n.restaurant_name ++ "\n  \x7d"

/-- `json.dumps(output_for_save, ensure_ascii=False, indent=2)`. -/
def serializeOutput : List NormalizedMenu → String
  | [] => "[]"
  | es => "[\n" ++ String.intercalate (",\n") (es.map serializeEntry) ++ "\n]"

/-- `save_file_name = Path(f"{restaurant_name}_{year}-{start_date}.json")`. -/
def save_file_name (restaurant_name : String) (year : Nat) (start_date : String) :
    String :=
  restaurant_name ++ "_" ++ toString year ++ "-" ++ start_date ++ ".json"

/-- `final_path = Path("menus") / save_file_name`. -/
def final_path (parsed : WeeklyMenu) (year : Nat) : String :=
  "menus" ++ "/" ++ save_file_name parsed.restaurant_name year parsed.start_date

/-- Fatal failures of the persistence block: the `assert not
final_path.exists()` (collision) and a `KeyError` during normalization. -/
inductive PipelineError where
  | collision
  | keyError
deriving DecidableEq, Repr

/-- The persistence block, lines 64-86 of the script, as a transformer of the
file-system content at `final_path` (`none` = no file there).  The `assert`
fires first; otherwise `open(final_path, "w")` creates/truncates the file
(content `""`), and `f.write(json.dumps(...))` runs as a single write only
after the whole normalization loop has succeeded. -/
def persist (existing : Option String) (parsed : WeeklyMenu) (year : Nat) :
    Option String × Except PipelineError Unit :=
  match existing with
  | some c => (some c, Except.error PipelineError.collision)
  | none =>
    match normalizeItems year parsed.restaurant_name (parsed.items.map model_dump) with
    | none => (some (""), Except.error PipelineError.keyError)
    | some out => (some (serializeOutput out), Except.ok ())

instance {ε α : Type} [DecidableEq ε] [DecidableEq α] : DecidableEq (Except ε α) := fun a b =>
  match a, b with
  | Except.ok x, Except.ok y =>
    if h : x = y then isTrue (by rw [h]) else isFalse (fun hc => h (Except.ok.inj hc))
  | Except.error x, Except.error y =>
    if h : x = y then isTrue (by rw [h]) else isFalse (fun hc => h (Except.error.inj hc))
  | Except.ok _, Except.error _ => isFalse (fun hc => Except.noConfusion hc)
  | Except.error _, Except.ok _ => isFalse (fun hc => Except.noConfusion hc)

/-- Graph of the weekday dict: `weekday_to_index` sends exactly the seven
weekday symbols to the values 1..7, everything else to `none`. -/
theorem weekday_graph (s : String) (k : Nat) :
    weekday_to_index s = some k ↔
      ((s = "Mon" ∧ k = 1) ∨ (s = "Tue" ∧ k = 2) ∨ (s = "Wed" ∧ k = 3) ∨
       (s = "Thu" ∧ k = 4) ∨ (s = "Fri" ∧ k = 5) ∨ (s = "Sat" ∧ k = 6) ∨
       (s = "Sun" ∧ k = 7)) := by
  unfold weekday_to_index
  split_ifs with h1 h2 h3 h4 h5 h6 h7 <;> simp_all <;> omega

/-- Graph of the meal-time dict. -/
theorem time_graph (s : String) (t : Nat) :
    time_to_index s = some t ↔
      ((s = "breakfast" ∧ t = 1) ∨ (s = "lunch" ∧ t = 2) ∨ (s = "dinner" ∧ t = 3)) := by
  unfold time_to_index
  split_ifs with h1 h2 h3 <;> simp_all <;> omega

theorem weekday_inj (s1 s2 : String) (k : Nat)
    (h1 : weekday_to_index s1 = some k) (h2 : weekday_to_index s2 = some k) :
    s1 = s2 := by
  rw [weekday_graph] at h1 h2
  rcases h1 with ⟨rfl, rfl⟩|⟨rfl, rfl⟩|⟨rfl, rfl⟩|⟨rfl, rfl⟩|⟨rfl, rfl⟩|⟨rfl, rfl⟩|⟨rfl, rfl⟩ <;>
    rcases h2 with ⟨rfl, h⟩|⟨rfl, h⟩|⟨rfl, h⟩|⟨rfl, h⟩|⟨rfl, h⟩|⟨rfl, h⟩|⟨rfl, h⟩ <;> simp_all

theorem time_inj (s1 s2 : String) (t : Nat)
    (h1 : time_to_index s1 = some t) (h2 : time_to_index s2 = some t) :
    s1 = s2 := by
  rw [time_graph] at h1 h2
  rcases h1 with ⟨rfl, rfl⟩|⟨rfl, rfl⟩|⟨rfl, rfl⟩ <;>
    rcases h2 with ⟨rfl, h⟩|⟨rfl, h⟩|⟨rfl, h⟩ <;> simp_all

theorem weekday_surj (k : Nat) (h1 : 1 ≤ k) (h2 : k ≤ 7) :
    ∃ s, weekday_to_index s = some k := by
  interval_cases k
  exacts [⟨"Mon", rfl⟩, ⟨"Tue", rfl⟩, ⟨"Wed", rfl⟩, ⟨"Thu", rfl⟩,
          ⟨"Fri", rfl⟩, ⟨"Sat", rfl⟩, ⟨"Sun", rfl⟩]

theorem time_surj (t : Nat) (h1 : 1 ≤ t) (h2 : t ≤ 3) :
    ∃ s, time_to_index s = some t := by
  interval_cases t
  exacts [⟨"breakfast", rfl⟩, ⟨"lunch", rfl⟩, ⟨"dinner", rfl⟩]

/-- A weekday symbol outside the dict makes the loop body fail (KeyError). -/
theorem normalizeEntry_fails_day (year : Nat) (rn : String) (d : DumpedDailyMenu)
    (h : weekday_to_index d.day = none) : normalizeEntry year rn d = none := by
  unfold normalizeEntry
  rw [h]

/-- A meal-time symbol outside the dict makes the loop body fail (KeyError). -/
theorem normalizeEntry_fails_time (year : Nat) (rn : String) (d : DumpedDailyMenu)
    (h : time_to_index d.time = none) : normalizeEntry year rn d = none := by
  unfold normalizeEntry
  cases weekday_to_index d.day <;> simp [h]

/-- Field-by-field description of a successful run of the loop body. -/
theorem normalizeEntry_fields (year : Nat) (rn : String) (d : DumpedDailyMenu)
    (n : NormalizedMenu) (h : normalizeEntry year rn d = some n) :
    n.date = toString year ++ "-" ++ d.date ∧
    n.restaurant_name = rn ∧
    n.menus = d.menus ∧
    n.calorie = (match d.calorie with | none => 0 | some c => c) ∧
    weekday_to_index d.day = some n.day ∧
    time_to_index d.time = some n.time := by
  unfold normalizeEntry at h
  cases hw : weekday_to_index d.day with
  | none => rw [hw] at h; cases h
  | some di =>
    rw [hw] at h
    cases ht : time_to_index d.time with
    | none => rw [ht] at h; cases h
    | some ti =>
      rw [ht] at h
      injection h with h2
      subst h2
      exact ⟨rfl, rfl, rfl, rfl, rfl, rfl⟩

/-- The loop preserves length and the index-wise correspondence of entries. -/
theorem normalizeItems_sound (year : Nat) (rn : String) :
    ∀ (l : List DumpedDailyMenu) (out : List NormalizedMenu),
      normalizeItems year rn l = some out →
      out.length = l.length ∧
      ∀ (i : Nat) (hi : i < l.length) (ho : i < out.length),
        normalizeEntry year rn (l.get ⟨i, hi⟩) = some (out.get ⟨i, ho⟩) := by
  intro l
  induction l with
  | nil =>
    intro out h
    unfold normalizeItems at h
    injection h with h2
    subst h2
    exact ⟨rfl, fun i hi => absurd hi (Nat.not_lt_zero i)⟩
  | cons d ds ih =>
    intro out h
    unfold normalizeItems at h
    cases hd : normalizeEntry year rn d with
    | none => rw [hd] at h; cases h
    | some n =>
      rw [hd] at h
      cases hr : normalizeItems year rn ds with
      | none => rw [hr] at h; cases h
      | some ns =>
        rw [hr] at h
        injection h with h2
        subst h2
        obtain ⟨hlen, hidx⟩ := ih ns hr
        refine ⟨by simp [hlen], ?_⟩
        intro i hi ho
        cases i with
        | zero => simpa using hd
        | succ j =>
          have hj : j < ds.length := by simpa using hi
          have hj2 : j < ns.length := by simpa using ho
          simpa using hidx j hj hj2

/-- Every member of the loop output comes from some input entry. -/
theorem normalizeItems_mem (year : Nat) (rn : String) :
    ∀ (l : List DumpedDailyMenu) (out : List NormalizedMenu),
      normalizeItems year rn l = some out →
      ∀ n ∈ out, ∃ d ∈ l, normalizeEntry year rn d = some n := by
  intro l
  induction l with
  | nil =>
    intro out h n hn
    unfold normalizeItems at h
    injection h with h2
    subst h2
    cases hn
  | cons d ds ih =>
    intro out h n hn
    unfold normalizeItems at h
    cases hd : normalizeEntry year rn d with
    | none => rw [hd] at h; cases h
    | some m =>
      rw [hd] at h
      cases hr : normalizeItems year rn ds with
      | none => rw [hr] at h; cases h
      | some ns =>
        rw [hr] at h
        injection h with h2
        subst h2
        rcases List.mem_cons.mp hn with rfl | hmem
        · exact ⟨d, List.mem_cons_self d ds, hd⟩
        · obtain ⟨e, he, hne⟩ := ih ns hr n hmem
          exact ⟨e, List.mem_cons_of_mem d he, hne⟩

/-- JSON-level (pre-validation) form of one item of the model's response:
`none` models a JSON `null` or an absent key.  `WeeklyMenu.model_validate_json`
rejects such a value for the required `int` field `calorie`. -/
structure RawDailyMenu where
  date : Option String
  day : Option String
  menus : Option (List String)
  calorie : Option Int
  time : Option String
deriving DecidableEq, Repr

/-- JSON-level form of the model's whole response. -/
structure RawWeeklyMenu where
  items : Option (List RawDailyMenu)
  restaurant_name : Option String
  start_date : Option String
  end_date : Option String
deriving DecidableEq, Repr

inductive ValidationError where
  | invalid
deriving DecidableEq, Repr

/-- Pydantic validation of one `DailyMenu` item: every declared field is
required and typed; a missing or `null` field fails validation. -/
def validateDailyMenu (r : RawDailyMenu) : Except ValidationError DailyMenu :=
  match r.date, r.day, r.menus, r.calorie, r.time with
  | some d, some w, some m, some c, some t => Except.ok ⟨d, w, m, c, t⟩
  | _, _, _, _, _ => Except.error ValidationError.invalid

def validateItems : List RawDailyMenu → Except ValidationError (List DailyMenu)
  | [] => Except.ok []
  | r :: rs =>
    match validateDailyMenu r, validateItems rs with
    | Except.ok m, Except.ok ms => Except.ok (m :: ms)
    | _, _ => Except.error ValidationError.invalid

/-- `WeeklyMenu.model_validate_json(response.text)`: validation of the whole
response into the typed `WeeklyMenu`. -/
def validateWeeklyMenu (r : RawWeeklyMenu) : Except ValidationError WeeklyMenu :=
  match r.items, r.restaurant_name, r.start_date, r.end_date with
  | some is, some rn, some sd, some ed =>
    match validateItems is with
    | Except.ok ms => Except.ok ⟨ms, rn, sd, ed⟩
    | Except.error e => Except.error e
  | _, _, _, _ => Except.error ValidationError.invalid

/-- Lines 56-86 as one step: `WeeklyMenu.model_validate_json` followed by the
persistence block.  A fatal `ValidationError` aborts before the existence
check, leaving the file state unchanged; the `Bool` reports whether the
normalized menu was written. -/
def validate_then_persist (existing : Option String) (raw : RawWeeklyMenu) (year : Nat) :
    Option String × Bool :=
  match validateWeeklyMenu raw with
  | Except.error _ => (existing, false)
  | Except.ok parsed =>
    match persist existing parsed year with
    | (content, Except.ok _) => (content, true)
    | (content, Except.error _) => (content, false)

theorem validateItems_calorie_error (r : RawDailyMenu) (hc : r.calorie = none) :
    ∀ (rs : List RawDailyMenu), r ∈ rs →
      validateItems rs = Except.error ValidationError.invalid := by
  intro rs
  induction rs with
  | nil => intro h; cases h
  | cons a as ih =>
    intro h
    rcases List.mem_cons.mp h with rfl | hmem
    · have hv : validateDailyMenu r = Except.error ValidationError.invalid := by
        rcases r with ⟨d, w, m, c, t⟩
        change c = none at hc
        subst hc
        cases d <;> cases w <;> cases m <;> cases t <;> rfl
      simp [validateItems, hv]
    · have hv := ih hmem
      cases ha : validateDailyMenu a <;> simp [validateItems, hv, ha]

/-- A response containing an item with a `null`/absent calorie fails
validation as a whole. -/
theorem validateWeeklyMenu_calorie_error (raw : RawWeeklyMenu) (rs : List RawDailyMenu)
    (r : RawDailyMenu) (hitems : raw.items = some rs) (hmem : r ∈ rs)
    (hc : r.calorie = none) :
    validateWeeklyMenu raw = Except.error ValidationError.invalid := by
  have hv := validateItems_calorie_error r hc rs hmem
  rcases raw with ⟨ri, rrn, rsd, red⟩
  change ri = some rs at hitems
  subst hitems
  cases rrn <;> cases rsd <;> cases red <;> simp [validateWeeklyMenu, hv]

/-- HTTP response as seen by the script after `requests.get(image_url)`:
a status code and the body bytes.  `requests.get` does not raise on a
non-success status; only transport-level failures raise. -/
structure HttpResponse where
  status : Nat
  content : List Nat
deriving DecidableEq, Repr

inductive FetchError where
  | transport
  | decodeFail
deriving DecidableEq, Repr

/-- Lines 42-43 of the script: the retrieval either raised at transport level
(left input) or produced a response whose body is handed straight to
`PIL.Image.open` — the status code is never inspected.  The decoder is a
parameter standing for PIL: `none` models `UnidentifiedImageError`. -/
def fetchImage {Img : Type} (decode : List Nat → Option Img)
    (r : Except FetchError HttpResponse) : Except FetchError Img :=
  match r with
  | Except.error e => Except.error e
  | Except.ok resp =>
    match decode resp.content with
    | some img => Except.ok img
    | none => Except.error FetchError.decodeFail

/-- Modelled from the spec: PIL's image decoding is outside this repository,
so it is stood in for by a decoder that accepts exactly the byte buffers
starting with a PNG-style magic prefix — a concrete instance of the spec's
"retrievable, image-decodable byte stream". -/
def pngMagicDecode (bytes : List Nat) : Option Nat :=
  if bytes.take 2 = [137, 80] then some 1 else none

/-- C2: the Persistence Writer computes the target path as
`menus/{restaurantName}_{currentYear}-{startDate}.json` with `startDate`
inserted verbatim (un-normalized MM-DD), and whenever a file already exists at
that path it fails with the collision assertion without writing, leaving the
existing content unmodified. -/
theorem path_template_and_collision_guard :
    (∀ (parsed : WeeklyMenu) (year : Nat),
      final_path parsed year =
        "menus/" ++ parsed.restaurant_name ++ "_" ++ toString year ++ "-" ++
          parsed.start_date ++ ".json") ∧
    (∀ (c : String) (parsed : WeeklyMenu) (year : Nat),
      persist (some c) parsed year = (some c, Except.error PipelineError.collision)) := by
  constructor
  · intro parsed year
    unfold final_path save_file_name
    simp only [String.append_assoc]
    rw [← String.append_assoc ("menus") ("/")]
    rfl
  · intro c parsed year
    rfl

/-- C3: `weekday_to_index` is a total bijection from the seven weekday symbols
onto 1..7 with Mon=1 .. Sun=7, `time_to_index` is a total bijection from the
three meal-time symbols onto 1..3 with breakfast=1, lunch=2, dinner=3, and on
any symbol outside these sets the lookup yields no value and the normalizer
loop body fails instead of defaulting. -/
theorem mapping_tables_bijective :
    (∀ s k, weekday_to_index s = some k ↔
      ((s = "Mon" ∧ k = 1) ∨ (s = "Tue" ∧ k = 2) ∨ (s = "Wed" ∧ k = 3) ∨
       (s = "Thu" ∧ k = 4) ∨ (s = "Fri" ∧ k = 5) ∨ (s = "Sat" ∧ k = 6) ∨
       (s = "Sun" ∧ k = 7))) ∧
    (∀ s t, time_to_index s = some t ↔
      ((s = "breakfast" ∧ t = 1) ∨ (s = "lunch" ∧ t = 2) ∨ (s = "dinner" ∧ t = 3))) ∧
    (∀ s1 s2 k, weekday_to_index s1 = some k → weekday_to_index s2 = some k → s1 = s2) ∧
    (∀ s1 s2 t, time_to_index s1 = some t → time_to_index s2 = some t → s1 = s2) ∧
    (∀ k, 1 ≤ k → k ≤ 7 → ∃ s, weekday_to_index s = some k) ∧
    (∀ t, 1 ≤ t → t ≤ 3 → ∃ s, time_to_index s = some t) ∧
    (∀ year rn d, weekday_to_index d.day = none → normalizeEntry year rn d = none) ∧
    (∀ year rn d, time_to_index d.time = none → normalizeEntry year rn d = none) :=
  ⟨weekday_graph, time_graph, weekday_inj, time_inj, weekday_surj, time_surj,
   normalizeEntry_fails_day, normalizeEntry_fails_time⟩

theorem mapping_tables_bijective_witness :
    normalizeEntry 2024 ("학생_식당") ⟨"03-04", "Funday", ["Rice"], some 100, "lunch"⟩ = none :=
  mapping_tables_bijective.2.2.2.2.2.2.1 2024 ("학생_식당")
    ⟨"03-04", "Funday", ["Rice"], some 100, "lunch"⟩ rfl

/-- C10: the weekly `end_date` is read but never used: two parsed extractions
that differ only in `end_date` give the same target path and the same persist
outcome (same file content, same result). -/
theorem end_date_noninterference :
    ∀ (parsed : WeeklyMenu) (e : String) (year : Nat) (existing : Option String),
      final_path { parsed with end_date := e } year = final_path parsed year ∧
      persist existing { parsed with end_date := e } year = persist existing parsed year :=
  fun _ _ _ _ => ⟨rfl, rfl⟩

/-- C1 counterexample: a run whose weekday symbol is not in the mapping table
fails after the existence check, yet a file (created empty by the
open-for-write) does exist at the target path afterwards, refuting the
claim that nothing is written there on failure. -/
theorem persist_atomicity_cex :
    ¬ (∀ (parsed : WeeklyMenu) (year : Nat),
        (persist none parsed year).snd ≠ Except.ok () →
        (persist none parsed year).fst = none) := by
  intro h
  have hc := h ⟨[⟨"03-04", "Funday", ["Rice"], 100, "lunch"⟩], "학생_식당", "03-04", "03-08"⟩
    2024 (by decide)
  exact absurd hc (by decide)

/-- C1 (amended): after a run that passes the existence check, the file at the
target path is either empty (some normalization lookup failed after
`open(..., "w")` already created the file) or the complete serialized
normalized weekly menu; a partially serialized menu is never on disk because
the single write happens only after the whole loop succeeds. -/
theorem persist_writes_empty_or_complete :
    ∀ (parsed : WeeklyMenu) (year : Nat),
      (normalizeItems year parsed.restaurant_name (parsed.items.map model_dump) = none ∧
        persist none parsed year = (some (""), Except.error PipelineError.keyError)) ∨
      (∃ out,
        normalizeItems year parsed.restaurant_name (parsed.items.map model_dump) = some out ∧
        persist none parsed year = (some (serializeOutput out), Except.ok ())) := by
  intro parsed year
  cases h : normalizeItems year parsed.restaurant_name (parsed.items.map model_dump) with
  | none => exact Or.inl ⟨rfl, by unfold persist; rw [h]⟩
  | some out => exact Or.inr ⟨out, rfl, by unfold persist; rw [h]⟩

/-- C4 counterexample: the claim says a null/absent calorie in the model's
JSON response "is normalized to 0 in the persisted output" — which at the
least requires such a response to reach a persisted output.  It never does: a
concrete response whose single item has a `null` calorie is rejected by
`model_validate_json` and the run dies before the writer, so nothing is
persisted for it. -/
theorem calorie_normalization_cex :
    ¬ (∀ (raw : RawWeeklyMenu) (rs : List RawDailyMenu) (r : RawDailyMenu),
        raw.items = some rs → r ∈ rs → r.calorie = none →
        (validate_then_persist none raw 2024).snd = true) := by
  intro h
  have hc := h
    ⟨some [⟨some ("03-04"), some ("Mon"), some ["Rice"], none, some ("lunch")⟩],
     some ("학생_식당"), some ("03-04"), some ("03-08")⟩
    [⟨some ("03-04"), some ("Mon"), some ["Rice"], none, some ("lunch")⟩]
    ⟨some ("03-04"), some ("Mon"), some ["Rice"], none, some ("lunch")⟩
    rfl (List.Mem.head _) rfl
  exact absurd hc (by decide)

/-- C4 (amended): a `null`/absent calorie in the model's JSON response is
rejected by schema validation, so no output is persisted for such a response
and the file state is unchanged; the normalizer's calorie-is-None branch maps
`None` to 0 but is reachable only at the dict level, and any integer calorie
of a validated entry — in particular any non-negative one — passes through to
the persisted entries unchanged. -/
theorem calorie_null_rejected_and_int_preserved :
    (∀ (raw : RawWeeklyMenu) (rs : List RawDailyMenu) (r : RawDailyMenu),
      raw.items = some rs → r ∈ rs → r.calorie = none →
      ∀ (existing : Option String) (year : Nat),
        validate_then_persist existing raw year = (existing, false)) ∧
    (∀ (year : Nat) (rn : String) (d : DumpedDailyMenu) (n : NormalizedMenu),
      normalizeEntry year rn d = some n →
      (d.calorie = none → n.calorie = 0) ∧
      (∀ c : Int, d.calorie = some c → n.calorie = c)) ∧
    (∀ (parsed : WeeklyMenu) (year : Nat) (out : List NormalizedMenu),
      normalizeItems year parsed.restaurant_name (parsed.items.map model_dump) = some out →
      ∀ (i : Nat) (hi : i < parsed.items.length) (ho : i < out.length),
        (out.get ⟨i, ho⟩).calorie = (parsed.items.get ⟨i, hi⟩).calorie) := by
  refine ⟨?_, ?_, ?_⟩
  · intro raw rs r hitems hmem hc existing year
    have hv := validateWeeklyMenu_calorie_error raw rs r hitems hmem hc
    unfold validate_then_persist
    rw [hv]
  · intro year rn d n h
    have h4 := (normalizeEntry_fields year rn d n h).2.2.2.1
    constructor
    · intro hc
      rw [hc] at h4
      exact h4
    · intro c hc
      rw [hc] at h4
      exact h4
  · intro parsed year out h
    intro i hi ho
    have hmap : i < (parsed.items.map model_dump).length := by simpa using hi
    have hidx := (normalizeItems_sound year parsed.restaurant_name _ out h).2 i hmap ho
    have hmd : (parsed.items.map model_dump).get ⟨i, hmap⟩ =
        model_dump (parsed.items.get ⟨i, hi⟩) := by
      simp [List.get_eq_getElem, List.getElem_map]
    rw [hmd] at hidx
    exact (normalizeEntry_fields _ _ _ _ hidx).2.2.2.1

theorem calorie_null_rejected_and_int_preserved_witness :
    validate_then_persist none
      ⟨some [⟨some ("03-05"), some ("Tue"), some ["Soup"], none, some ("dinner")⟩],
       some ("교직원_식당"), some ("03-04"), some ("03-08")⟩ 2025 = (none, false) :=
  calorie_null_rejected_and_int_preserved.1
    ⟨some [⟨some ("03-05"), some ("Tue"), some ["Soup"], none, some ("dinner")⟩],
     some ("교직원_식당"), some ("03-04"), some ("03-08")⟩
    [⟨some ("03-05"), some ("Tue"), some ["Soup"], none, some ("dinner")⟩]
    ⟨some ("03-05"), some ("Tue"), some ["Soup"], none, some ("dinner")⟩
    rfl (List.Mem.head _) rfl none 2025

/-- C5: date normalization is the string concatenation
`f"{year}-{daily_menu['date']}"` with the process's current year; in
particular year 2024 and entry date "11-20" give exactly "2024-11-20". -/
theorem date_year_stamp :
    ∀ (year : Nat) (rn : String) (d : DumpedDailyMenu) (n : NormalizedMenu),
      normalizeEntry year rn d = some n →
      n.date = toString year ++ "-" ++ d.date ∧
      (year = 2024 → d.date = "11-20" → n.date = "2024-11-20") := by
  intro year rn d n h
  have h1 := (normalizeEntry_fields year rn d n h).1
  refine ⟨h1, ?_⟩
  rintro rfl hd
  rw [h1, hd]
  rfl

theorem date_year_stamp_witness :
    NormalizedMenu.date ⟨"2024-11-20", 3, ["Stew"], 500, 3, "교직원_식당"⟩ = "2024-11-20" :=
  (date_year_stamp 2024 ("교직원_식당") ⟨"11-20", "Wed", ["Stew"], some 500, "dinner"⟩
    ⟨"2024-11-20", 3, ["Stew"], 500, 3, "교직원_식당"⟩ rfl).2 rfl rfl

/-- C6: on success the normalizer output has the same length as the input
`items` and the i-th output entry is the normalization of the i-th input
entry, so relative order is preserved (no re-sorting). -/
theorem normalized_output_same_length_and_order :
    ∀ (parsed : WeeklyMenu) (year : Nat) (out : List NormalizedMenu),
      normalizeItems year parsed.restaurant_name (parsed.items.map model_dump) = some out →
      out.length = parsed.items.length ∧
      ∀ (i : Nat) (hi : i < parsed.items.length) (ho : i < out.length),
        normalizeEntry year parsed.restaurant_name (model_dump (parsed.items.get ⟨i, hi⟩)) =
          some (out.get ⟨i, ho⟩) := by
  intro parsed year out h
  obtain ⟨hlen, hidx⟩ := normalizeItems_sound year parsed.restaurant_name _ out h
  refine ⟨by simpa using hlen, ?_⟩
  intro i hi ho
  have hmap : i < (parsed.items.map model_dump).length := by simpa using hi
  have hmd : (parsed.items.map model_dump).get ⟨i, hmap⟩ =
      model_dump (parsed.items.get ⟨i, hi⟩) := by
    simp [List.get_eq_getElem, List.getElem_map]
  have hi2 := hidx i hmap ho
  rw [hmd] at hi2
  exact hi2

theorem normalized_output_same_length_and_order_witness :
    ([⟨"2024-03-04", 1, ["Rice", "Soup"], 0, 2, "학생_식당"⟩,
      ⟨"2024-03-05", 2, [], 1200, 3, "학생_식당"⟩] : List NormalizedMenu).length =
      ([⟨"03-04", "Mon", ["Rice", "Soup"], 0, "lunch"⟩,
        ⟨"03-05", "Tue", [], 1200, "dinner"⟩] : List DailyMenu).length :=
  (normalized_output_same_length_and_order
    ⟨[⟨"03-04", "Mon", ["Rice", "Soup"], 0, "lunch"⟩, ⟨"03-05", "Tue", [], 1200, "dinner"⟩],
     "학생_식당", "03-04", "03-08"⟩ 2024
    [⟨"2024-03-04", 1, ["Rice", "Soup"], 0, 2, "학생_식당"⟩,
     ⟨"2024-03-05", 2, [], 1200, 3, "학생_식당"⟩] rfl).1

/-- C7: every normalized entry carries the weekly-level restaurant identity;
when that identity is the Halal dormitory value, every persisted entry carries
the Halal-specific identity and not the generic dormitory identity. -/
theorem restaurant_name_propagation :
    ∀ (parsed : WeeklyMenu) (year : Nat) (out : List NormalizedMenu),
      normalizeItems year parsed.restaurant_name (parsed.items.map model_dump) = some out →
      (∀ n ∈ out, n.restaurant_name = parsed.restaurant_name) ∧
      (parsed.restaurant_name = "기숙사_식당_할랄" →
        ∀ n ∈ out, n.restaurant_name = "기숙사_식당_할랄" ∧
          n.restaurant_name ≠ "기숙사_식당_한식") := by
  intro parsed year out h
  have hall : ∀ n ∈ out, n.restaurant_name = parsed.restaurant_name := by
    intro n hn
    obtain ⟨d, hd, hnd⟩ := normalizeItems_mem year parsed.restaurant_name _ out h n hn
    exact (normalizeEntry_fields _ _ _ _ hnd).2.1
  refine ⟨hall, ?_⟩
  intro hh n hn
  have hq := hall n hn
  rw [hh] at hq
  refine ⟨hq, ?_⟩
  rw [hq]
  decide

/-- C8 counterexample: a non-success HTTP response (status 404) whose body
bytes decode as an image flows on to the extraction step as a fetched image —
the script never raises on HTTP status, refuting the claim that a non-success
response always aborts the run. -/
theorem fetch_status_not_checked_cex :
    ¬ (∀ resp : HttpResponse, resp.status ≠ 200 →
        fetchImage pngMagicDecode (Except.ok resp) = Except.error FetchError.decodeFail ∨
        fetchImage pngMagicDecode (Except.ok resp) = Except.error FetchError.transport) := by
  intro h
  rcases h ⟨404, [137, 80, 78, 71]⟩ (by decide) with hc | hc <;> exact absurd hc (by decide)

/-- C8 (amended): the Image Fetcher aborts when the transport-level retrieval
raised, and aborts with a decode failure exactly when the retrieved bytes are
not decodable as an image; the HTTP status code is never consulted, so two
responses with the same body — whatever their statuses — fetch identically. -/
theorem fetch_decode_only :
    ∀ {Img : Type} (decode : List Nat → Option Img) (resp : HttpResponse),
      fetchImage decode (Except.error FetchError.transport) =
        (Except.error FetchError.transport : Except FetchError Img) ∧
      (fetchImage decode (Except.ok resp) = Except.error FetchError.decodeFail ↔
        decode resp.content = none) ∧
      (∀ resp2 : HttpResponse, resp2.content = resp.content →
        fetchImage decode (Except.ok resp2) = fetchImage decode (Except.ok resp)) := by
  intro Img decode resp
  refine ⟨rfl, ?_, ?_⟩
  · constructor
    · intro h
      cases hd : decode resp.content with
      | none => rfl
      | some img => simp [fetchImage, hd] at h
    · intro h
      simp [fetchImage, h]
  · intro resp2 h2
    simp [fetchImage, h2]

theorem fetch_decode_only_witness :
    fetchImage pngMagicDecode (Except.ok ⟨500, [1, 2, 3]⟩) =
      fetchImage pngMagicDecode (Except.ok ⟨200, [1, 2, 3]⟩) :=
  (fetch_decode_only pngMagicDecode ⟨200, [1, 2, 3]⟩).2.2 ⟨500, [1, 2, 3]⟩ rfl

/-- C9: pydantic validation requires `calorie` to be present and an integer
for every item — a response with a `null`/absent calorie is rejected before
normalization — and on every validated value the dumped `calorie` is an
actual integer, so the normalizer's calorie-is-None branch can never fire:
the normalized calorie always equals the validated one. -/
theorem calorie_required_by_validation :
    (∀ (raw : RawWeeklyMenu) (rs : List RawDailyMenu) (r : RawDailyMenu),
      raw.items = some rs → r ∈ rs → r.calorie = none →
      validateWeeklyMenu raw = Except.error ValidationError.invalid) ∧
    (∀ (raw : RawWeeklyMenu) (parsed : WeeklyMenu),
      validateWeeklyMenu raw = Except.ok parsed →
      ∀ m ∈ parsed.items, (model_dump m).calorie = some m.calorie ∧
        ∀ (year : Nat) (rn : String) (n : NormalizedMenu),
          normalizeEntry year rn (model_dump m) = some n → n.calorie = m.calorie) := by
  constructor
  · exact validateWeeklyMenu_calorie_error
  · intro raw parsed hok m hm
    refine ⟨rfl, ?_⟩
    intro year rn n hn
    exact (normalizeEntry_fields year rn (model_dump m) n hn).2.2.2.1

theorem calorie_required_by_validation_witness :
    validateWeeklyMenu
      ⟨some [⟨some ("03-04"), some ("Mon"), some ["Rice"], none, some ("lunch")⟩],
       some ("학생_식당"), some ("03-04"), some ("03-08")⟩ =
      Except.error ValidationError.invalid :=
  calorie_required_by_validation.1
    ⟨some [⟨some ("03-04"), some ("Mon"), some ["Rice"], none, some ("lunch")⟩],
     some ("학생_식당"), some ("03-04"), some ("03-08")⟩
    [⟨some ("03-04"), some ("Mon"), some ["Rice"], none, some ("lunch")⟩]
    ⟨some ("03-04"), some ("Mon"), some ["Rice"], none, some ("lunch")⟩
    rfl (List.Mem.head _) rfl

theorem restaurant_name_propagation_witness :
    NormalizedMenu.restaurant_name ⟨"2024-03-04", 1, ["Rice"], 800, 2, "기숙사_식당_할랄"⟩ =
      "기숙사_식당_할랄" :=
  (restaurant_name_propagation
    ⟨[⟨"03-04", "Mon", ["Rice"], 800, "lunch"⟩], "기숙사_식당_할랄", "03-04", "03-08"⟩ 2024
    [⟨"2024-03-04", 1, ["Rice"], 800, 2, "기숙사_식당_할랄"⟩] rfl).1
    ⟨"2024-03-04", 1, ["Rice"], 800, 2, "기숙사_식당_할랄"⟩ (List.Mem.head _)
